import Mathlib

/-!
# Qt Ribbon widgets: stylesheet derivation, paste sanitising, fixed height

A shallow embedding of `RibbonLineEdit.cpp`, `RibbonToolButton.cpp` and
`RibbonButtonPlugin.cpp`.  Widgets are records of the properties the source
reads or writes; every member function becomes a pure function from the widget
state (and its arguments) to the new widget state.

The Qt base classes are not part of the repository.  What the source calls on
them is modelled in the section "Qt base classes" from the documented behaviour
of Qt 5, and kept apart from the functions translated from the repository.
-/

/-! ## Qt base classes -/

/-- A `QString`: a sequence of characters.  Qt stores UTF-16 code units; the
source only searches for ASCII text, which never matches inside a surrogate
pair, so searching and replacing over characters gives the same result. -/
abbrev QString := List Char

/-- The `QString` holding the characters of a literal. -/
def qs (s : String) : QString := s.data

/-- Worker of `QString::replace`: scans left to right; `skip` counts the
characters of the current match still to be dropped.  Matches do not overlap
and the inserted text is not scanned again.  An empty `before` matches before
every character and at the end, as in Qt. -/
def QString.replaceFrom (before after : QString) : Nat → QString → QString
  | _, [] => if before = [] then after else []
  | skip + 1, _ :: cs => QString.replaceFrom before after skip cs
  | 0, c :: cs =>
    if before = [] then after ++ c :: QString.replaceFrom before after 0 cs
    else if before.isPrefixOf (c :: cs) then
      after ++ QString.replaceFrom before after (before.length - 1) cs
    else c :: QString.replaceFrom before after 0 cs

/-- `QString::replace(before, after)`: every occurrence of `before` becomes `after`. -/
def QString.replace (s before after : QString) : QString :=
  QString.replaceFrom before after 0 s

/-- `QString::contains(sub)`. -/
def QString.contains (s sub : QString) : Bool :=
  s.tails.any (fun t => sub.isPrefixOf t)

/-- `QString::count(sub)`: the number of positions at which `sub` occurs. -/
def QString.count (s sub : QString) : Nat :=
  (s.tails.filter (fun t => sub.isPrefixOf t)).length

/-- `QEvent::KeyPress`. -/
def QEvent.KeyPress : Nat := 6

/-- `QEvent::KeyRelease`. -/
def QEvent.KeyRelease : Nat := 7

/-- `Qt::Key_Return`. -/
def Qt.Key_Return : Int := 0x01000004

/-- `Qt::Key_Enter`. -/
def Qt.Key_Enter : Int := 0x01000005

/-- `QWIDGETSIZE_MAX`, the largest size a widget accepts. -/
def QWIDGETSIZE_MAX : Int := 16777215

/-- A `QEvent`.  `key` is present exactly when the object is a `QKeyEvent`
(so that `dynamic_cast<QKeyEvent *>` succeeds) and then holds `key()`. -/
structure QEvent where
  type : Nat
  key : Option Int
  accepted : Bool
  deriving DecidableEq, Repr

/-- `QEvent::accept()`. -/
def QEvent.accept (e : QEvent) : QEvent := { e with accepted := true }

/-- `QSizePolicy::Policy`. -/
inductive QSizePolicy.Policy where
  | Fixed | Minimum | Maximum | Preferred | MinimumExpanding | Expanding | Ignored
  deriving DecidableEq, Repr

/-- A `QSizePolicy`, reduced to its two policies. -/
structure QSizePolicy where
  horizontalPolicy : QSizePolicy.Policy
  verticalPolicy : QSizePolicy.Policy
  deriving DecidableEq, Repr

/-- A `QMimeData` as far as `insertFromMimeData` reads it. -/
structure QMimeData where
  hasText : Bool
  hasHtml : Bool
  text : QString
  deriving DecidableEq, Repr

/-- `QTextEdit::LineWrapMode`. -/
inductive QTextEdit.LineWrapMode where
  | NoWrap | WidgetWidth | FixedPixelWidth | FixedColumnWidth
  deriving DecidableEq, Repr

/-- `Qt::ScrollBarPolicy`. -/
inductive Qt.ScrollBarPolicy where
  | ScrollBarAsNeeded | ScrollBarAlwaysOff | ScrollBarAlwaysOn
  deriving DecidableEq, Repr

/-- The colour of the `QPalette::PlaceholderText` role: the one of the base
widget, `Qt::darkGray`, or `QColor(Qt::darkGray).lighter(125)`. -/
inductive PlaceholderColour where
  | inherited | darkGray | darkGrayLighter125
  deriving DecidableEq, Repr

/-- Font metrics of a widget: the height of `boundingRect(text)`. -/
abbrev QFontMetrics := QString → Int

/-- The least value of a 32-bit `int`. -/
def INT_MIN : Int := -2147483648

/-- The greatest value of a 32-bit `int`. -/
def INT_MAX : Int := 2147483647

/-- The 32-bit `int` an integer result is stored as: reduced modulo `2^32`
into `INT_MIN .. INT_MAX` (two's complement wrap-around). -/
def wrapInt32 (x : Int) : Int :=
  (x + 2147483648) % 4294967296 - 2147483648

namespace Nedrysoft.Ribbon

/-! ## RibbonLineEdit -/

/-- The state of a `RibbonLineEdit`: the `QTextEdit` properties the source
reads or writes.  `documentMargin` is a `qreal` in Qt; `documentMarginWrites`
counts the calls of `QTextDocument::setDocumentMargin`.  The text cursor is the
pair anchor, position; the text between them is the selection. -/
structure RibbonLineEdit where
  macShowFocusRect : Bool
  styleSheet : QString
  lineWrapMode : QTextEdit.LineWrapMode
  horizontalScrollBarPolicy : Qt.ScrollBarPolicy
  verticalScrollBarPolicy : Qt.ScrollBarPolicy
  placeholderText : QString
  minimumHeight : Int
  maximumHeight : Int
  sizePolicy : QSizePolicy
  placeholderColour : PlaceholderColour
  plainText : QString
  cursorAnchor : Nat
  cursorPosition : Nat
  rectHeight : Int
  documentMargin : ℚ
  documentMarginWrites : Nat
  deriving DecidableEq

/-- `QWidget::setMinimumHeight`: the value is brought into `0 .. QWIDGETSIZE_MAX`
and stored. -/
def QTextEdit.setMinimumHeight (w : RibbonLineEdit) (minh : Int) : RibbonLineEdit :=
  { w with minimumHeight := max 0 (min minh QWIDGETSIZE_MAX) }

/-- `QWidget::setMaximumHeight`: the value is brought into `0 .. QWIDGETSIZE_MAX`
and stored. -/
def QTextEdit.setMaximumHeight (w : RibbonLineEdit) (maxh : Int) : RibbonLineEdit :=
  { w with maximumHeight := max 0 (min maxh QWIDGETSIZE_MAX) }

/-- `QWidget::setSizePolicy(horizontal, vertical)`. -/
def QTextEdit.setSizePolicy (w : RibbonLineEdit)
    (horizontal vertical : QSizePolicy.Policy) : RibbonLineEdit :=
  { w with sizePolicy := ⟨horizontal, vertical⟩ }

/-- `QTextDocument::setDocumentMargin`. -/
def QTextDocument.setDocumentMargin (w : RibbonLineEdit) (margin : ℚ) : RibbonLineEdit :=
  { w with documentMargin := margin, documentMarginWrites := w.documentMarginWrites + 1 }

/-- Start of the selection, inside the text. -/
def QTextEdit.selectionStart (w : RibbonLineEdit) : Nat :=
  min (min w.cursorAnchor w.cursorPosition) w.plainText.length

/-- End of the selection, inside the text. -/
def QTextEdit.selectionEnd (w : RibbonLineEdit) : Nat :=
  min (max w.cursorAnchor w.cursorPosition) w.plainText.length

/-- Document change of `QTextEdit::insertPlainText`: the selection is replaced by
`text` and the cursor is placed behind the inserted text. -/
def QTextEdit.insertPlainText (w : RibbonLineEdit) (text : QString) : RibbonLineEdit :=
  { w with
    plainText := w.plainText.take (QTextEdit.selectionStart w) ++ text ++
      w.plainText.drop (QTextEdit.selectionEnd w)
    cursorAnchor := QTextEdit.selectionStart w + text.length
    cursorPosition := QTextEdit.selectionStart w + text.length }

/-- Whether `QTextEdit::insertPlainText` changes the document, and so emits
`textChanged`: some text is inserted or a selection is removed. -/
def QTextEdit.insertChangesDocument (w : RibbonLineEdit) (text : QString) : Bool :=
  !text.isEmpty || decide (QTextEdit.selectionStart w < QTextEdit.selectionEnd w)

/-- The style template of `RibbonLineEdit.cpp`. -/
def RibbonLineEdit.ThemeStylesheet : QString :=
  qs ("\n    QTextEdit \x7b\n        [background-colour];\n        height: 13px;\n" ++
      "        [border];\n        padding: 0px;\n    \x7d\n\n    QTextEdit:focus \x7b\n" ++
      "        [border];\n    \x7d\n")

/-- The fixed height of the line edit. -/
def RibbonLineEdit.WidgetHeight : Int := 21

/-- `RibbonLineEdit::updateStyleSheet`. -/
def RibbonLineEdit.updateStyleSheet (w : RibbonLineEdit) (isDarkMode : Bool) :
    RibbonLineEdit :=
  let styleSheet := RibbonLineEdit.ThemeStylesheet
  let styleSheet := styleSheet.replace (qs "[border]") (qs "border: 0px none")
  let styleSheet :=
    if isDarkMode then
      styleSheet.replace (qs "[background-colour]") (qs "background-color: #434343")
    else
      styleSheet.replace (qs "[background-colour]") (qs "background-color: #ffffff")
  { w with styleSheet := styleSheet }

/-- The slot the constructor connects to `ThemeSupport::themeChanged`. -/
def RibbonLineEdit.themeChanged (w : RibbonLineEdit) (isDarkMode : Bool) : RibbonLineEdit :=
  w.updateStyleSheet isDarkMode

/-- `RibbonLineEdit::setMinimumHeight`: the argument is unused. -/
def RibbonLineEdit.setMinimumHeight (w : RibbonLineEdit) (_minimumHeight : Int) :
    RibbonLineEdit :=
  QTextEdit.setMinimumHeight w RibbonLineEdit.WidgetHeight

/-- `RibbonLineEdit::setMaximumHeight`: the argument is unused. -/
def RibbonLineEdit.setMaximumHeight (w : RibbonLineEdit) (_maximumHeight : Int) :
    RibbonLineEdit :=
  QTextEdit.setMaximumHeight w RibbonLineEdit.WidgetHeight

/-- `RibbonLineEdit::setSizePolicy(QSizePolicy policy)`. -/
def RibbonLineEdit.setSizePolicy (w : RibbonLineEdit) (policy : QSizePolicy) :
    RibbonLineEdit :=
  QTextEdit.setSizePolicy w policy.horizontalPolicy QSizePolicy.Policy.Fixed

/-- `RibbonLineEdit::setSizePolicy(horizontal, vertical)`: `vertical` is unused. -/
def RibbonLineEdit.setSizePolicy2 (w : RibbonLineEdit)
    (horizontal _vertical : QSizePolicy.Policy) : RibbonLineEdit :=
  QTextEdit.setSizePolicy w horizontal QSizePolicy.Policy.Fixed

/-- The text `resizeEvent` measures: the content, or the placeholder text when
the content is empty. -/
def RibbonLineEdit.measuredText (w : RibbonLineEdit) : QString :=
  if w.plainText.isEmpty then w.placeholderText else w.plainText

/-- The `offset` of `RibbonLineEdit::resizeEvent`, computed in 32-bit `int`: the
difference of the two heights wraps around, and `/` on `int` truncates. -/
def RibbonLineEdit.offset (fontMetrics : QFontMetrics) (w : RibbonLineEdit) : Int :=
  Int.tdiv (wrapInt32 (w.rectHeight - fontMetrics w.measuredText)) 2

/-- `RibbonLineEdit::resizeEvent`; the event argument is not read. -/
def RibbonLineEdit.resizeEvent (fontMetrics : QFontMetrics) (w : RibbonLineEdit) :
    RibbonLineEdit :=
  let offset := RibbonLineEdit.offset fontMetrics w
  if (offset : ℚ) ≠ w.documentMargin then
    QTextDocument.setDocumentMargin w offset
  else
    w

/-- The slot the constructor connects to `textChanged`: `resizeEvent(nullptr)`. -/
def RibbonLineEdit.textChanged (fontMetrics : QFontMetrics) (w : RibbonLineEdit) :
    RibbonLineEdit :=
  RibbonLineEdit.resizeEvent fontMetrics w

/-- `insertPlainText` on a `RibbonLineEdit`: the document change of the base
class, then the `textChanged` slot when the document changed. -/
def RibbonLineEdit.insertPlainText (fontMetrics : QFontMetrics) (w : RibbonLineEdit)
    (text : QString) : RibbonLineEdit :=
  if QTextEdit.insertChangesDocument w text then
    RibbonLineEdit.textChanged fontMetrics (QTextEdit.insertPlainText w text)
  else
    QTextEdit.insertPlainText w text

/-- `RibbonLineEdit::insertFromMimeData`. -/
def RibbonLineEdit.insertFromMimeData (fontMetrics : QFontMetrics) (w : RibbonLineEdit)
    (source : QMimeData) : RibbonLineEdit :=
  if source.hasText || source.hasHtml then
    let plainString := source.text
    let plainString := plainString.replace (qs "\r") (qs "")
    let plainString := plainString.replace (qs "\n") (qs "")
    RibbonLineEdit.insertPlainText fontMetrics w plainString
  else
    w

/-- `RibbonLineEdit::event`.  `baseEvent` is `QTextEdit::event`, which returns the
widget, the event and its result.  The outcome is `none` when a key-press or
key-release event is not a `QKeyEvent`: the source then dereferences the null
pointer the cast returns. -/
def RibbonLineEdit.event
    (baseEvent : RibbonLineEdit → QEvent → RibbonLineEdit × QEvent × Bool)
    (w : RibbonLineEdit) (e : QEvent) : Option (RibbonLineEdit × QEvent × Bool) :=
  if e.type = QEvent.KeyPress ∨ e.type = QEvent.KeyRelease then
    match e.key with
    | none => none
    | some key =>
      if key = Qt.Key_Enter ∨ key = Qt.Key_Return then
        some (w, e.accept, true)
      else
        some (baseEvent w e)
  else
    some (baseEvent w e)

/-- The constructor `RibbonLineEdit::RibbonLineEdit`.  `base` is the widget as
`QTextEdit(parent)` leaves it, `isDarkMode` is `themeSupport->isDarkMode()`.
The two `connect` calls are the slots `themeChanged` and `textChanged`; the
palette block is the one compiled for Qt 5.12 and later. -/
def RibbonLineEdit.construct (base : RibbonLineEdit) (isDarkMode : Bool) : RibbonLineEdit :=
  let w := { base with macShowFocusRect := false }
  let w := w.updateStyleSheet isDarkMode
  let w := { w with lineWrapMode := QTextEdit.LineWrapMode.NoWrap }
  let w := { w with horizontalScrollBarPolicy := Qt.ScrollBarPolicy.ScrollBarAlwaysOff }
  let w := { w with verticalScrollBarPolicy := Qt.ScrollBarPolicy.ScrollBarAlwaysOff }
  let w := if w.placeholderText.isEmpty then { w with placeholderText := qs " " } else w
  let w := QTextEdit.setMinimumHeight w RibbonLineEdit.WidgetHeight
  let w := QTextEdit.setMaximumHeight w RibbonLineEdit.WidgetHeight
  let w := QTextEdit.setSizePolicy w w.sizePolicy.horizontalPolicy QSizePolicy.Policy.Fixed
  if isDarkMode then
    { w with placeholderColour := PlaceholderColour.darkGrayLighter125 }
  else
    { w with placeholderColour := PlaceholderColour.darkGray }

/-- A freshly constructed `QTextEdit` with the defaults of Qt 5: no text, no
placeholder, document margin 4, both size policies `Expanding`. -/
def QTextEdit.fresh : RibbonLineEdit where
  macShowFocusRect := true
  styleSheet := []
  lineWrapMode := QTextEdit.LineWrapMode.WidgetWidth
  horizontalScrollBarPolicy := Qt.ScrollBarPolicy.ScrollBarAsNeeded
  verticalScrollBarPolicy := Qt.ScrollBarPolicy.ScrollBarAsNeeded
  placeholderText := []
  minimumHeight := 0
  maximumHeight := QWIDGETSIZE_MAX
  sizePolicy := ⟨QSizePolicy.Policy.Expanding, QSizePolicy.Policy.Expanding⟩
  placeholderColour := PlaceholderColour.inherited
  plainText := []
  cursorAnchor := 0
  cursorPosition := 0
  rectHeight := 480
  documentMargin := 4
  documentMarginWrites := 0

/-- A call of one of the two height setters of `RibbonLineEdit`. -/
inductive HeightCall where
  | setMinimumHeight (minimumHeight : Int)
  | setMaximumHeight (maximumHeight : Int)
  deriving DecidableEq, Repr

/-- Performs one height-setter call. -/
def HeightCall.apply (w : RibbonLineEdit) : HeightCall → RibbonLineEdit
  | .setMinimumHeight v => w.setMinimumHeight v
  | .setMaximumHeight v => w.setMaximumHeight v

/-! ## RibbonToolButton -/

/-- The state of a `RibbonToolButton`: its style sheet. -/
structure RibbonToolButton where
  styleSheet : QString
  deriving DecidableEq, Repr

/-- The style template of `RibbonToolButton.cpp`. -/
def RibbonToolButton.ThemeStylesheet : QString :=
  qs ("\n    QToolButton \x7b\n        border: 0px none;\n" ++
      "        background: [background-colour];\n        margin: 0px;\n" ++
      "        border-radius: none;\n    \x7d\n\n    QToolButton::hover \x7b\n" ++
      "        background: [hover-colour];\n    \x7d\n")

/-- `RibbonToolButton::updateStyleSheet`. -/
def RibbonToolButton.updateStyleSheet (w : RibbonToolButton) (isDarkMode : Bool) :
    RibbonToolButton :=
  let styleSheet := RibbonToolButton.ThemeStylesheet
  let styleSheet :=
    if isDarkMode then
      (styleSheet.replace (qs "[background-colour]") (qs "#434343")).replace
        (qs "[hover-colour]") (qs "#616161")
    else
      styleSheet.replace (qs "[background-colour]") (qs "#ffffff")
  { w with styleSheet := styleSheet }

/-- The slot the constructor connects to `ThemeSupport::themeChanged`. -/
def RibbonToolButton.themeChanged (w : RibbonToolButton) (isDarkMode : Bool) :
    RibbonToolButton :=
  w.updateStyleSheet isDarkMode

/-- The constructor `RibbonToolButton::RibbonToolButton`; `base` is the widget as
`QToolButton(parent)` leaves it. -/
def RibbonToolButton.construct (base : RibbonToolButton) (isDarkMode : Bool) :
    RibbonToolButton :=
  base.updateStyleSheet isDarkMode

end Nedrysoft.Ribbon

/-! ## RibbonButtonPlugin -/

/-- The state of a `RibbonButtonPlugin`. -/
structure RibbonButtonPlugin where
  m_initialized : Bool
  deriving DecidableEq, Repr

/-- The constructor `RibbonButtonPlugin::RibbonButtonPlugin`. -/
def RibbonButtonPlugin.construct : RibbonButtonPlugin :=
  { m_initialized := false }

/-- `RibbonButtonPlugin::initialize`; `core` is the address of the form editor
and is unused. -/
def RibbonButtonPlugin.initialize (p : RibbonButtonPlugin) (_core : Nat) :
    RibbonButtonPlugin :=
  if p.m_initialized then
    p
  else
    { p with m_initialized := true }

/-- `RibbonButtonPlugin::isInitialized`. -/
def RibbonButtonPlugin.isInitialized (p : RibbonButtonPlugin) : Bool :=
  p.m_initialized

/-! ## Lemmas on strings -/

/-- `QString.contains` decides whether `sub` is a contiguous part of `s`. -/
theorem QString.contains_iff (s sub : QString) :
    QString.contains s sub = true ↔ sub <:+: s := by
  unfold QString.contains
  rw [List.any_eq_true]
  constructor
  · rintro ⟨t, ht, hp⟩
    rw [List.mem_tails] at ht
    rw [List.isPrefixOf_iff_prefix] at hp
    exact hp.isInfix.trans ht.isInfix
  · intro h
    obtain ⟨t, hp, hs⟩ := List.infix_iff_prefix_suffix.mp h
    exact ⟨t, (List.mem_tails _ _).mpr hs, List.isPrefixOf_iff_prefix.mpr hp⟩

/-- `QString.contains` is false exactly when `sub` is no part of `s`. -/
theorem QString.contains_eq_false_iff (s sub : QString) :
    QString.contains s sub = false ↔ ¬ sub <:+: s := by
  rw [← QString.contains_iff, Bool.not_eq_true]

/-- Replacing a single character by nothing removes exactly that character. -/
theorem QString.replace_char_empty (c : Char) (s : QString) :
    QString.replace s [c] [] = s.filter (fun x => x != c) := by
  unfold QString.replace
  induction s with
  | nil => simp [QString.replaceFrom]
  | cons x xs ih =>
    by_cases hx : x = c
    · subst hx
      simp [QString.replaceFrom, List.isPrefixOf, ih]
    · have hx' : (c == x) = false := by
        simpa using fun h => hx h.symm
      simp [QString.replaceFrom, List.isPrefixOf, ih, hx, hx']

namespace Nedrysoft.Ribbon

/-! ## Style sheets -/

/-- The style sheet `RibbonLineEdit::updateStyleSheet` derives for a mode. -/
theorem lineEdit_updateStyleSheet_styleSheet (w : RibbonLineEdit) (isDarkMode : Bool) :
    (w.updateStyleSheet isDarkMode).styleSheet =
      (RibbonLineEdit.updateStyleSheet QTextEdit.fresh isDarkMode).styleSheet := rfl

set_option maxRecDepth 100000 in
/-- Claim C2.  For both theme modes the style sheet `RibbonLineEdit::updateStyleSheet`
derives contains the background colour of the mode (`background-color: #434343`
for dark, `background-color: #ffffff` for light) and neither `[background-colour]`
nor `[border]`, although `[border]` occurs twice in the template. -/
theorem lineEdit_styleSheet_resolved (w : RibbonLineEdit) (isDarkMode : Bool) :
    qs (if isDarkMode then "background-color: #434343" else "background-color: #ffffff")
        <:+: (w.updateStyleSheet isDarkMode).styleSheet
      ∧ ¬ qs "[background-colour]" <:+: (w.updateStyleSheet isDarkMode).styleSheet
      ∧ ¬ qs "[border]" <:+: (w.updateStyleSheet isDarkMode).styleSheet
      ∧ RibbonLineEdit.ThemeStylesheet.count (qs "[border]") = 2 := by
  rw [lineEdit_updateStyleSheet_styleSheet w isDarkMode]
  simp only [← QString.contains_iff, ← QString.contains_eq_false_iff]
  cases isDarkMode <;> decide

/-- The style sheet `RibbonToolButton::updateStyleSheet` derives for a mode. -/
theorem toolButton_updateStyleSheet_styleSheet (w : RibbonToolButton)
    (isDarkMode : Bool) :
    (w.updateStyleSheet isDarkMode).styleSheet =
      (RibbonToolButton.updateStyleSheet ⟨[]⟩ isDarkMode).styleSheet := rfl

/-- The constructor of the line edit leaves the style sheet of its `updateStyleSheet` call. -/
theorem RibbonLineEdit.construct_styleSheet (base : RibbonLineEdit) (isDarkMode : Bool) :
    (RibbonLineEdit.construct base isDarkMode).styleSheet =
      (RibbonLineEdit.updateStyleSheet QTextEdit.fresh isDarkMode).styleSheet := by
  obtain ⟨_, _, _, _, _, placeholder, _, _, _, _, _, _, _, _, _, _⟩ := base
  cases placeholder <;> cases isDarkMode <;> rfl

/-- After a run of notifications, a style sheet that every notification overwrites
is the one of the last mode seen. -/
theorem foldl_styleSheet_last {W : Type} (step : W → Bool → W) (sheet : W → QString)
    (derive : Bool → QString) (hstep : ∀ w m, sheet (step w m) = derive m) :
    ∀ (modes : List Bool) (w : W) (m0 : Bool), sheet w = derive m0 →
      sheet (modes.foldl step w) = derive (modes.getLastD m0) := by
  intro modes
  induction modes with
  | nil => intro w m0 h0; simpa using h0
  | cons m ms ih =>
    intro w m0 _
    rw [List.foldl_cons, List.getLastD_cons]
    exact ih (step w m) m (hstep w m)

set_option maxRecDepth 100000 in
/-- Evaluation for claim C1 at its failing input, the light mode: the style sheet
`RibbonToolButton::updateStyleSheet` derives for the light mode contains `#ffffff`
and no `[background-colour]`, but still contains the unresolved placeholder
`[hover-colour]`, and contains none of the colour literals the source names. -/
theorem toolButton_light_keeps_hover_placeholder (w : RibbonToolButton) :
    qs "[hover-colour]" <:+: (w.updateStyleSheet false).styleSheet
      ∧ qs "#ffffff" <:+: (w.updateStyleSheet false).styleSheet
      ∧ ¬ qs "[background-colour]" <:+: (w.updateStyleSheet false).styleSheet
      ∧ ¬ qs "#616161" <:+: (w.updateStyleSheet false).styleSheet := by
  rw [toolButton_updateStyleSheet_styleSheet w false]
  simp only [← QString.contains_iff, ← QString.contains_eq_false_iff]
  decide

set_option maxRecDepth 100000 in
/-- The dark branch of `RibbonToolButton::updateStyleSheet` resolves both
placeholders: the style sheet contains `#434343` and `#616161` and neither
`[background-colour]` nor `[hover-colour]`. -/
theorem toolButton_dark_styleSheet_resolved (w : RibbonToolButton) :
    qs "#434343" <:+: (w.updateStyleSheet true).styleSheet
      ∧ qs "#616161" <:+: (w.updateStyleSheet true).styleSheet
      ∧ ¬ qs "[background-colour]" <:+: (w.updateStyleSheet true).styleSheet
      ∧ ¬ qs "[hover-colour]" <:+: (w.updateStyleSheet true).styleSheet := by
  rw [toolButton_updateStyleSheet_styleSheet w true]
  simp only [← QString.contains_iff, ← QString.contains_eq_false_iff]
  decide

set_option maxRecDepth 100000 in
/-- Claim C6.  For the line edit and the tool button, after construction in a mode
and any sequence of theme-changed notifications, the applied style sheet is the
one of a widget constructed (from any base widget) in the last mode seen; so
light, dark, light ends with the style sheet of a widget that only saw light;
and the light and the dark style sheet differ. -/
theorem styleSheet_follows_last_mode (base base' : RibbonLineEdit)
    (button button' : RibbonToolButton) (m0 : Bool) (modes : List Bool) :
    (modes.foldl RibbonLineEdit.themeChanged (RibbonLineEdit.construct base m0)).styleSheet
        = (RibbonLineEdit.construct base' (modes.getLastD m0)).styleSheet
      ∧ (modes.foldl RibbonToolButton.themeChanged
            (RibbonToolButton.construct button m0)).styleSheet
        = (RibbonToolButton.construct button' (modes.getLastD m0)).styleSheet
      ∧ ([true, false].foldl RibbonLineEdit.themeChanged
            (RibbonLineEdit.construct base false)).styleSheet
        = (RibbonLineEdit.construct base' false).styleSheet
      ∧ ([true, false].foldl RibbonToolButton.themeChanged
            (RibbonToolButton.construct button false)).styleSheet
        = (RibbonToolButton.construct button' false).styleSheet
      ∧ (RibbonLineEdit.construct base false).styleSheet
        ≠ (RibbonLineEdit.construct base' true).styleSheet
      ∧ (RibbonToolButton.construct button false).styleSheet
        ≠ (RibbonToolButton.construct button' true).styleSheet := by
  have hLine : ∀ (b : RibbonLineEdit) (ms : List Bool) (m : Bool),
      (ms.foldl RibbonLineEdit.themeChanged (RibbonLineEdit.construct b m)).styleSheet
        = (RibbonLineEdit.construct base' (ms.getLastD m)).styleSheet := by
    intro b ms m
    rw [RibbonLineEdit.construct_styleSheet base']
    exact foldl_styleSheet_last RibbonLineEdit.themeChanged RibbonLineEdit.styleSheet
      (fun d => (RibbonLineEdit.updateStyleSheet QTextEdit.fresh d).styleSheet)
      (fun w d => lineEdit_updateStyleSheet_styleSheet w d) ms _ m
      (RibbonLineEdit.construct_styleSheet b m)
  have hButton : ∀ (b : RibbonToolButton) (ms : List Bool) (m : Bool),
      (ms.foldl RibbonToolButton.themeChanged (RibbonToolButton.construct b m)).styleSheet
        = (RibbonToolButton.construct button' (ms.getLastD m)).styleSheet := by
    intro b ms m
    exact foldl_styleSheet_last RibbonToolButton.themeChanged RibbonToolButton.styleSheet
      (fun d => (RibbonToolButton.updateStyleSheet ⟨[]⟩ d).styleSheet)
      (fun w d => toolButton_updateStyleSheet_styleSheet w d) ms _ m
      (toolButton_updateStyleSheet_styleSheet b m)
  refine ⟨hLine base modes m0, hButton button modes m0, hLine base [true, false] false,
    hButton button [true, false] false, ?_, ?_⟩
  · rw [RibbonLineEdit.construct_styleSheet, RibbonLineEdit.construct_styleSheet]
    decide
  · show (RibbonToolButton.updateStyleSheet ⟨[]⟩ false).styleSheet
      ≠ (RibbonToolButton.updateStyleSheet ⟨[]⟩ true).styleSheet
    decide

/-! ## Fixed height and size policy -/

/-- The value the base setters store for `WidgetHeight` is 21. -/
theorem RibbonLineEdit.stored_widgetHeight :
    max 0 (min RibbonLineEdit.WidgetHeight QWIDGETSIZE_MAX) = 21 := by decide

/-- The constructor leaves both height limits at `WidgetHeight`. -/
theorem RibbonLineEdit.construct_height (base : RibbonLineEdit) (isDarkMode : Bool) :
    (RibbonLineEdit.construct base isDarkMode).minimumHeight = 21
      ∧ (RibbonLineEdit.construct base isDarkMode).maximumHeight = 21 := by
  obtain ⟨_, _, _, _, _, placeholder, _, _, _, _, _, _, _, _, _, _⟩ := base
  cases placeholder <;> cases isDarkMode <;>
    exact ⟨RibbonLineEdit.stored_widgetHeight, RibbonLineEdit.stored_widgetHeight⟩

/-- A height-setter call keeps both height limits at `WidgetHeight`. -/
theorem HeightCall.apply_height (w : RibbonLineEdit) (c : HeightCall)
    (h : w.minimumHeight = 21 ∧ w.maximumHeight = 21) :
    (c.apply w).minimumHeight = 21 ∧ (c.apply w).maximumHeight = 21 := by
  cases c with
  | setMinimumHeight v => exact ⟨RibbonLineEdit.stored_widgetHeight, h.2⟩
  | setMaximumHeight v => exact ⟨h.1, RibbonLineEdit.stored_widgetHeight⟩

/-- A run of height-setter calls keeps both height limits at `WidgetHeight`. -/
theorem HeightCall.foldl_height (calls : List HeightCall) :
    ∀ w : RibbonLineEdit, w.minimumHeight = 21 ∧ w.maximumHeight = 21 →
      (calls.foldl HeightCall.apply w).minimumHeight = 21
        ∧ (calls.foldl HeightCall.apply w).maximumHeight = 21 := by
  induction calls with
  | nil => intro w h; exact h
  | cons c cs ih => intro w h; exact ih (c.apply w) (HeightCall.apply_height w c h)

/-- Claim C4.  The constructor sets the minimum and the maximum height of a
`RibbonLineEdit` to 21, and after every call of every sequence of calls to
`setMinimumHeight` and `setMaximumHeight`, with any integer arguments, both are
still 21. -/
theorem lineEdit_height_immutable (base : RibbonLineEdit) (isDarkMode : Bool)
    (calls : List HeightCall) (n : Nat) :
    RibbonLineEdit.WidgetHeight = 21
      ∧ (RibbonLineEdit.construct base isDarkMode).minimumHeight = 21
      ∧ (RibbonLineEdit.construct base isDarkMode).maximumHeight = 21
      ∧ ((calls.take n).foldl HeightCall.apply
            (RibbonLineEdit.construct base isDarkMode)).minimumHeight = 21
      ∧ ((calls.take n).foldl HeightCall.apply
            (RibbonLineEdit.construct base isDarkMode)).maximumHeight = 21 := by
  have h0 := RibbonLineEdit.construct_height base isDarkMode
  exact ⟨rfl, h0.1, h0.2, HeightCall.foldl_height (calls.take n) _ h0⟩

/-- Claim C8.  Both forms of `RibbonLineEdit::setSizePolicy` keep the horizontal
policy of the caller and set the vertical policy to `Fixed`, so the two forms
agree; the constructor keeps the horizontal policy of the base widget and sets
the vertical policy to `Fixed`. -/
theorem setSizePolicy_forces_vertical_fixed (base w : RibbonLineEdit) (isDarkMode : Bool)
    (h v : QSizePolicy.Policy) :
    (w.setSizePolicy2 h v).sizePolicy = ⟨h, QSizePolicy.Policy.Fixed⟩
      ∧ (w.setSizePolicy ⟨h, v⟩).sizePolicy = ⟨h, QSizePolicy.Policy.Fixed⟩
      ∧ w.setSizePolicy2 h v = w.setSizePolicy ⟨h, v⟩
      ∧ (RibbonLineEdit.construct base isDarkMode).sizePolicy
          = ⟨base.sizePolicy.horizontalPolicy, QSizePolicy.Policy.Fixed⟩ := by
  refine ⟨rfl, rfl, rfl, ?_⟩
  obtain ⟨_, _, _, _, _, placeholder, _, _, _, _, _, _, _, _, _, _⟩ := base
  cases placeholder <;> cases isDarkMode <;> rfl

/-! ## Key events -/

/-- Claim C5.  For an event of type `KeyPress` or `KeyRelease` whose key is
`Enter` or `Return`, `RibbonLineEdit::event` returns true with the event
accepted and the widget, its text included, unchanged, whatever the handler of
the base class is: that handler is not run. -/
theorem event_swallows_enter_return
    (baseEvent : RibbonLineEdit → QEvent → RibbonLineEdit × QEvent × Bool)
    (w : RibbonLineEdit) (e : QEvent) (key : Int)
    (hType : e.type = QEvent.KeyPress ∨ e.type = QEvent.KeyRelease)
    (hKey : e.key = some key)
    (hEnter : key = Qt.Key_Enter ∨ key = Qt.Key_Return) :
    RibbonLineEdit.event baseEvent w e = some (w, e.accept, true)
      ∧ e.accept.accepted = true
      ∧ (∀ w1 e1 r, RibbonLineEdit.event baseEvent w e = some (w1, e1, r) →
          w1.plainText = w.plainText ∧ e1.accepted = true ∧ r = true)
      ∧ ∀ otherBase, RibbonLineEdit.event otherBase w e
          = RibbonLineEdit.event baseEvent w e := by
  have hEv : ∀ b, RibbonLineEdit.event b w e = some (w, e.accept, true) := by
    intro b
    unfold RibbonLineEdit.event
    rw [if_pos hType, hKey]
    simp only []
    rw [if_pos hEnter]
  refine ⟨hEv baseEvent, rfl, ?_, fun b => by rw [hEv b, hEv baseEvent]⟩
  intro w1 e1 r h
  rw [hEv baseEvent] at h
  simp only [Option.some.injEq, Prod.mk.injEq] at h
  obtain ⟨rfl, rfl, rfl⟩ := h
  exact ⟨rfl, rfl, rfl⟩

/-- Witness of claim C5: a `Return` key press sent to a fresh line edit whose
base handler would append a line feed. -/
theorem event_swallows_enter_return_witness :
    ((⟨QEvent.KeyPress, some Qt.Key_Return, false⟩ : QEvent).type = QEvent.KeyPress
        ∨ (⟨QEvent.KeyPress, some Qt.Key_Return, false⟩ : QEvent).type = QEvent.KeyRelease)
      ∧ RibbonLineEdit.event
          (fun w e => ({ w with plainText := w.plainText ++ qs "\n" }, e, false))
          (RibbonLineEdit.construct QTextEdit.fresh false)
          ⟨QEvent.KeyPress, some Qt.Key_Return, false⟩
        = some (RibbonLineEdit.construct QTextEdit.fresh false,
            ⟨QEvent.KeyPress, some Qt.Key_Return, true⟩, true) :=
  ⟨Or.inl rfl,
    (event_swallows_enter_return
      (fun w e => ({ w with plainText := w.plainText ++ qs "\n" }, e, false))
      (RibbonLineEdit.construct QTextEdit.fresh false)
      ⟨QEvent.KeyPress, some Qt.Key_Return, false⟩ Qt.Key_Return
      (Or.inl rfl) rfl (Or.inr rfl)).1⟩

end Nedrysoft.Ribbon

/-! ## Plugin initialisation -/

/-- Further calls of `initialize` leave an initialised plugin as it is. -/
theorem RibbonButtonPlugin.foldl_initialize (cores : List Nat) :
    ∀ p : RibbonButtonPlugin, p.m_initialized = true →
      cores.foldl RibbonButtonPlugin.initialize p = p := by
  induction cores with
  | nil => intro p _; rfl
  | cons c cs ih =>
    intro p hp
    have hc : RibbonButtonPlugin.initialize p c = p := by
      unfold RibbonButtonPlugin.initialize
      rw [if_pos hp]
    rw [List.foldl_cons, hc]
    exact ih p hp

/-- Claim C7.  `isInitialized` is false after construction and true after the
first call of `initialize`, for any argument; every further call leaves the
plugin as it was after the first call, so `initialize` applied twice equals
`initialize` applied once. -/
theorem plugin_initialize_latch (p : RibbonButtonPlugin) (core core' : Nat)
    (cores : List Nat) :
    RibbonButtonPlugin.construct.isInitialized = false
      ∧ RibbonButtonPlugin.isInitialized
          ( RibbonButtonPlugin.initialize RibbonButtonPlugin.construct core) = true
      ∧ RibbonButtonPlugin.isInitialized ( RibbonButtonPlugin.initialize p core) = true
      ∧ RibbonButtonPlugin.initialize ( RibbonButtonPlugin.initialize p core) core'
          = RibbonButtonPlugin.initialize p core
      ∧ cores.foldl RibbonButtonPlugin.initialize ( RibbonButtonPlugin.initialize p core)
          = RibbonButtonPlugin.initialize p core := by
  have hInit : ( RibbonButtonPlugin.initialize p core).m_initialized = true := by
    unfold RibbonButtonPlugin.initialize
    split
    · assumption
    · rfl
  refine ⟨rfl, rfl, hInit, ?_, RibbonButtonPlugin.foldl_initialize cores _ hInit⟩
  exact RibbonButtonPlugin.foldl_initialize [core'] _ hInit

namespace Nedrysoft.Ribbon

/-! ## Paste -/

/-- `resizeEvent` does not touch the text. -/
theorem RibbonLineEdit.resizeEvent_plainText (fontMetrics : QFontMetrics)
    (w : RibbonLineEdit) :
    (RibbonLineEdit.resizeEvent fontMetrics w).plainText = w.plainText := by
  unfold RibbonLineEdit.resizeEvent
  simp only []
  split <;> rfl

/-- The text after `insertPlainText`: the selection replaced by the inserted text. -/
theorem RibbonLineEdit.insertPlainText_plainText (fontMetrics : QFontMetrics)
    (w : RibbonLineEdit) (text : QString) :
    (RibbonLineEdit.insertPlainText fontMetrics w text).plainText =
      w.plainText.take (QTextEdit.selectionStart w) ++ text ++
        w.plainText.drop (QTextEdit.selectionEnd w) := by
  unfold RibbonLineEdit.insertPlainText RibbonLineEdit.textChanged
  split
  · rw [RibbonLineEdit.resizeEvent_plainText]; rfl
  · rfl

/-- The two replacements of `insertFromMimeData` remove the carriage returns and
the line feeds and nothing else. -/
theorem QString.replace_cr_lf (s : QString) :
    (s.replace (qs "\r") (qs "")).replace (qs "\n") (qs "")
      = s.filter (fun c => c != '\r' && c != '\n') := by
  show (s.replace ['\r'] []).replace ['\n'] [] = _
  rw [QString.replace_char_empty, QString.replace_char_empty, List.filter_filter]
  congr 1
  funext c
  exact Bool.and_comm _ _

/-- Claim C3.  Pasting a payload that has text inserts the text of the payload
with every carriage return and line feed removed and all other characters kept
in order: the inserted string is the text filtered of these two characters and
contains neither; pasting `a\r\nb\nc` into an empty line edit leaves the content
`abc`. -/
theorem insertFromMimeData_strips_newlines (fontMetrics : QFontMetrics)
    (w : RibbonLineEdit) (source : QMimeData) (hText : source.hasText = true) :
    RibbonLineEdit.insertFromMimeData fontMetrics w source
        = RibbonLineEdit.insertPlainText fontMetrics w
            (source.text.filter (fun c => c != '\r' && c != '\n'))
      ∧ (RibbonLineEdit.insertFromMimeData fontMetrics w source).plainText
        = w.plainText.take (QTextEdit.selectionStart w)
            ++ source.text.filter (fun c => c != '\r' && c != '\n')
            ++ w.plainText.drop (QTextEdit.selectionEnd w)
      ∧ '\r' ∉ source.text.filter (fun c => c != '\r' && c != '\n')
      ∧ '\n' ∉ source.text.filter (fun c => c != '\r' && c != '\n')
      ∧ (w.plainText = [] → source.text = qs "a\r\nb\nc" →
          (RibbonLineEdit.insertFromMimeData fontMetrics w source).plainText = qs "abc") := by
  have hIns : RibbonLineEdit.insertFromMimeData fontMetrics w source
      = RibbonLineEdit.insertPlainText fontMetrics w
          (source.text.filter (fun c => c != '\r' && c != '\n')) := by
    unfold RibbonLineEdit.insertFromMimeData
    simp only [hText, Bool.true_or, if_true]
    rw [QString.replace_cr_lf]
  refine ⟨hIns, ?_, ?_, ?_, ?_⟩
  · rw [hIns, RibbonLineEdit.insertPlainText_plainText]
  · simp [List.mem_filter]
  · simp [List.mem_filter]
  · intro hEmpty hSrc
    rw [hIns, RibbonLineEdit.insertPlainText_plainText, hEmpty, hSrc,
      List.take_nil, List.drop_nil]
    decide

/-- Witness of claim C3: `a\r\nb\nc` pasted into a fresh, empty line edit. -/
theorem insertFromMimeData_strips_newlines_witness :
    (⟨true, false, qs "a\r\nb\nc"⟩ : QMimeData).hasText = true
      ∧ (RibbonLineEdit.insertFromMimeData (fun s => 13 * (s.length : Int))
          (RibbonLineEdit.construct QTextEdit.fresh false)
          ⟨true, false, qs "a\r\nb\nc"⟩).plainText = qs "abc" :=
  ⟨rfl,
    (insertFromMimeData_strips_newlines (fun s => 13 * (s.length : Int))
      (RibbonLineEdit.construct QTextEdit.fresh false)
      ⟨true, false, qs "a\r\nb\nc"⟩ rfl).2.2.2.2 rfl rfl⟩

/-- Claim C9.  A payload that has neither text nor HTML is ignored by
`insertFromMimeData`: nothing is inserted and the widget, its content included,
is unchanged. -/
theorem insertFromMimeData_ignores_non_text (fontMetrics : QFontMetrics)
    (w : RibbonLineEdit) (source : QMimeData)
    (hText : source.hasText = false) (hHtml : source.hasHtml = false) :
    RibbonLineEdit.insertFromMimeData fontMetrics w source = w
      ∧ (RibbonLineEdit.insertFromMimeData fontMetrics w source).plainText = w.plainText := by
  have h : RibbonLineEdit.insertFromMimeData fontMetrics w source = w := by
    unfold RibbonLineEdit.insertFromMimeData
    simp [hText, hHtml]
  exact ⟨h, by rw [h]⟩

/-- Witness of claim C9: a payload without text and HTML, whose `text` is even
set, pasted into a fresh line edit. -/
theorem insertFromMimeData_ignores_non_text_witness :
    (⟨false, false, qs "image"⟩ : QMimeData).hasText = false
      ∧ (⟨false, false, qs "image"⟩ : QMimeData).hasHtml = false
      ∧ RibbonLineEdit.insertFromMimeData (fun s => 13 * (s.length : Int))
          (RibbonLineEdit.construct QTextEdit.fresh true) ⟨false, false, qs "image"⟩
        = RibbonLineEdit.construct QTextEdit.fresh true :=
  ⟨rfl, rfl,
    (insertFromMimeData_ignores_non_text (fun s => 13 * (s.length : Int))
      (RibbonLineEdit.construct QTextEdit.fresh true) ⟨false, false, qs "image"⟩ rfl rfl).1⟩

/-! ## Vertical centring -/

/-- Truncating division by two leaves a remainder of absolute value at most one. -/
theorem tdiv_two_remainder (d : Int) : |d - Int.tdiv d 2 - Int.tdiv d 2| ≤ 1 := by
  rcases le_total 0 d with h | h
  · rw [Int.tdiv_eq_ediv h (by decide), abs_le]
    omega
  · have hneg : Int.tdiv d 2 = -((-d) / 2) := by
      rw [← Int.tdiv_eq_ediv (by omega) (by decide), Int.neg_tdiv, neg_neg]
    rw [hneg, abs_le]
    omega

/-- A value inside the range of `int` is stored unchanged. -/
theorem wrapInt32_of_inRange (x : Int) (hLo : INT_MIN ≤ x) (hHi : x ≤ INT_MAX) :
    wrapInt32 x = x := by
  unfold wrapInt32
  unfold INT_MIN at hLo
  unfold INT_MAX at hHi
  omega

/-- Where the difference of the heights leaves the range of `int`, the offset is
the one of the wrapped difference: rect height `INT_MAX` and text height `-1`
give `-1073741824`. -/
theorem offset_wraps_on_overflow :
    RibbonLineEdit.offset (fun _ => -1) { QTextEdit.fresh with rectHeight := INT_MAX }
      = -1073741824 := by
  decide

/-- Claim C10.  With `h` the height of the widget rect and `t` the bounding-rect
height of the content, or of the placeholder text when the content is empty,
and `h - t` inside the range of `int`: after `RibbonLineEdit::resizeEvent` the
document margin is the truncating quotient `(h - t) / 2`; the gap above, the
margin, and the gap below, `h - t - margin`, differ by at most 1 (also when
`t <= h`); the margin is written exactly when it differs from that value,
otherwise the widget is unchanged; a second call changes nothing. -/
theorem resizeEvent_centres_text (fontMetrics : QFontMetrics) (w : RibbonLineEdit)
    (hLo : INT_MIN ≤ w.rectHeight
      - fontMetrics (if w.plainText = [] then w.placeholderText else w.plainText))
    (hHi : w.rectHeight
      - fontMetrics (if w.plainText = [] then w.placeholderText else w.plainText) ≤ INT_MAX) :
    RibbonLineEdit.offset fontMetrics w
        = Int.tdiv (w.rectHeight
            - fontMetrics (if w.plainText = [] then w.placeholderText else w.plainText)) 2
      ∧ (RibbonLineEdit.resizeEvent fontMetrics w).documentMargin
        = ((Int.tdiv (w.rectHeight
            - fontMetrics (if w.plainText = [] then w.placeholderText else w.plainText)) 2
              : Int) : ℚ)
      ∧ |(w.rectHeight - fontMetrics (RibbonLineEdit.measuredText w)
            - RibbonLineEdit.offset fontMetrics w) - RibbonLineEdit.offset fontMetrics w| ≤ 1
      ∧ (w.documentMargin = ((RibbonLineEdit.offset fontMetrics w : Int) : ℚ) →
          RibbonLineEdit.resizeEvent fontMetrics w = w)
      ∧ (w.documentMargin ≠ ((RibbonLineEdit.offset fontMetrics w : Int) : ℚ) →
          RibbonLineEdit.resizeEvent fontMetrics w
            = { w with documentMargin := ((RibbonLineEdit.offset fontMetrics w : Int) : ℚ),
                       documentMarginWrites := w.documentMarginWrites + 1 })
      ∧ RibbonLineEdit.resizeEvent fontMetrics (RibbonLineEdit.resizeEvent fontMetrics w)
        = RibbonLineEdit.resizeEvent fontMetrics w := by
  have hText : RibbonLineEdit.measuredText w
      = (if w.plainText = [] then w.placeholderText else w.plainText) := by
    unfold RibbonLineEdit.measuredText
    simp only [List.isEmpty_iff]
  have hQuot : RibbonLineEdit.offset fontMetrics w
      = Int.tdiv (w.rectHeight
          - fontMetrics (if w.plainText = [] then w.placeholderText else w.plainText)) 2 := by
    unfold RibbonLineEdit.offset
    rw [hText, wrapInt32_of_inRange _ hLo hHi]
  have hEq : ∀ v : RibbonLineEdit,
      v.documentMargin = ((RibbonLineEdit.offset fontMetrics v : Int) : ℚ) →
      RibbonLineEdit.resizeEvent fontMetrics v = v := by
    intro v h
    unfold RibbonLineEdit.resizeEvent
    simp only []
    rw [if_neg (by rw [h]; exact fun hne => hne rfl)]
  have hNe : w.documentMargin ≠ ((RibbonLineEdit.offset fontMetrics w : Int) : ℚ) →
      RibbonLineEdit.resizeEvent fontMetrics w
        = QTextDocument.setDocumentMargin w (RibbonLineEdit.offset fontMetrics w) := by
    intro h
    unfold RibbonLineEdit.resizeEvent
    simp only []
    rw [if_pos (fun hc => h hc.symm)]
  have hMargin : (RibbonLineEdit.resizeEvent fontMetrics w).documentMargin
      = ((RibbonLineEdit.offset fontMetrics w : Int) : ℚ) := by
    by_cases h : w.documentMargin = ((RibbonLineEdit.offset fontMetrics w : Int) : ℚ)
    · rw [hEq w h, h]
    · rw [hNe h]; rfl
  have hOffset : RibbonLineEdit.offset fontMetrics (RibbonLineEdit.resizeEvent fontMetrics w)
      = RibbonLineEdit.offset fontMetrics w := by
    by_cases h : w.documentMargin = ((RibbonLineEdit.offset fontMetrics w : Int) : ℚ)
    · rw [hEq w h]
    · rw [hNe h]; rfl
  refine ⟨hQuot, ?_, ?_, hEq w, fun h => by rw [hNe h]; rfl, ?_⟩
  · rw [hMargin, hQuot]
  · rw [hQuot, hText]
    exact tdiv_two_remainder _
  · apply hEq
    rw [hOffset]
    exact hMargin

/-- Witness of claim C10: a line edit of height 21 showing its placeholder, with
a font of height 13 and the default margin 4 of Qt, is left unchanged, and the
margin is `(21 - 13) / 2 = 4`. -/
theorem resizeEvent_centres_text_witness :
    (INT_MIN ≤ (21 : Int) - 13 ∧ (21 : Int) - 13 ≤ INT_MAX)
      ∧ (RibbonLineEdit.resizeEvent (fun _ => 13)
        { RibbonLineEdit.construct QTextEdit.fresh false with rectHeight := 21 }).documentMargin
        = 4
      ∧ RibbonLineEdit.resizeEvent (fun _ => 13)
          { RibbonLineEdit.construct QTextEdit.fresh false with rectHeight := 21 }
        = { RibbonLineEdit.construct QTextEdit.fresh false with rectHeight := 21 } := by
  have h := resizeEvent_centres_text (fun _ => 13)
    { RibbonLineEdit.construct QTextEdit.fresh false with rectHeight := 21 }
    (by decide) (by decide)
  have hOffset : RibbonLineEdit.offset (fun _ => 13)
      { RibbonLineEdit.construct QTextEdit.fresh false with rectHeight := 21 } = 4 := by
    decide
  rw [hOffset] at h
  refine ⟨⟨by decide, by decide⟩, ?_, h.2.2.2.1 (by show (4 : ℚ) = ((4 : Int) : ℚ); norm_num)⟩
  rw [h.2.1]
  have hQuot : Int.tdiv ((21 : Int) - 13) 2 = 4 := by decide
  exact_mod_cast congrArg (fun z : Int => (z : ℚ)) hQuot

end Nedrysoft.Ribbon
